import Mathlib

/-!
Verification of the PlayCanvas web-components glue layer (pwc.mjs) and the
bundled Gaussian-splat viewer demo (src/js/app.js).

The embedding is shallow: each JavaScript function relevant to a claim is
translated into an executable Lean definition. DOM attribute values are
modelled as `Option String` (with `none` for a null / absent attribute),
JavaScript numbers as rationals, and the asynchronous lifecycle callbacks as
functions producing a trace of the awaited promises and engine calls in the
order the code performs them (an `await` suspends the callback until the
awaited promise resolves, so a later trace entry runs only after every
earlier awaited promise has resolved).
-/

namespace Pwc

/-! ## JavaScript attribute and string helpers -/

/-- A JavaScript string that may be `null` (for example the result of
`getAttribute`): `none` models `null`. -/
abbrev JSStr := Option String

/-- Truthiness of a JavaScript string value: `null` and the empty string are
falsy, every other string is truthy. -/
def strTruthy : JSStr → Bool
  | none => false
  | some s => s != ""

/-- The JavaScript idiom `value || dflt` for string values: a falsy value
(null or the empty string) is replaced by the default. -/
def jsOr (value : JSStr) (dflt : String) : String :=
  match value with
  | none => dflt
  | some s => if s = "" then dflt else s

/-- Splitting a character list at every occurrence of a separator. An empty
input yields one empty piece, matching `"".split(sep)` in JavaScript. -/
def splitChars (sep : Char) : List Char → List (List Char)
  | [] => [[]]
  | c :: cs =>
    match splitChars sep cs with
    | [] => if c = sep then [[], []] else [[c]]
    | h :: t => if c = sep then [] :: h :: t else (c :: h) :: t

/-- The JavaScript `s.split(sep)` for a single-character separator,
modelled over the character list of the string (browser built-in, external
collaborator). -/
def jsSplit (sep : Char) (s : String) : List String :=
  (splitChars sep s.data).map (fun cs => String.mk cs)

/-- The JavaScript `s.startsWith(p)` (browser built-in). -/
def jsStartsWith (s p : String) : Bool :=
  p.data.isPrefixOf s.data

/-- ASCII lower-casing of one character. -/
def asciiLowerChar (c : Char) : Char :=
  if 65 ≤ c.toNat ∧ c.toNat ≤ 90 then Char.ofNat (c.toNat + 32) else c

/-- The JavaScript `s.toLowerCase()` restricted to ASCII, which covers every
CSS color name in the table below (browser built-in). -/
def asciiToLower (s : String) : String :=
  String.mk (s.data.map asciiLowerChar)

/-! ## ComponentElement lifecycle (src/unnamed/part_000, lines 1082-1153)

`ComponentElement` is the base class of every component custom element
(pc-camera, pc-light, pc-render, ...). No subclass overrides
`connectedCallback`; only `ScriptComponentElement` overrides
`disconnectedCallback` and it delegates to the base implementation.
The async callbacks are modelled as trace-producing functions. -/

/-- An observable step of `ComponentElement.connectedCallback`:
the two awaited readiness promises, the engine `addComponent` call, the
`initComponent` hook and the resolution of the element readiness promise. -/
inductive CEvent where
  | awaitAppReady
  | awaitEntityReady
  | engineAddComponent (name : String)
  | initComponent
  | readyResolved
  deriving DecidableEq, Repr

/-- Result of running `connectedCallback`: the ordered trace of steps, the
engine component stored in `this._component` (named by its component name,
`none` when no component was created) and whether the readiness promise was
resolved. -/
structure ConnectOutcome where
  trace : List CEvent
  component : Option String
  ready : Bool
  deriving DecidableEq, Repr

/-- `ComponentElement.addComponent` (lines 1099-1107): when a closest
ancestor pc-entity exists, await its readiness promise and then call
`entity.addComponent(componentName, data)`; otherwise do nothing. -/
def addComponentRun (hasEntity : Bool) (componentName : String) :
    List CEvent × Option String :=
  if hasEntity then
    ([CEvent.awaitEntityReady, CEvent.engineAddComponent componentName],
      some componentName)
  else ([], none)

/-- `ComponentElement.connectedCallback` (lines 1109-1115): await
`closestApp?.ready()` (skipped when there is no ancestor pc-app, since
awaiting `undefined` resolves immediately), then run `addComponent`, then
`initComponent`, then `_onReady`. -/
def connectedCallbackRun (hasApp hasEntity : Bool) (componentName : String) :
    ConnectOutcome :=
  let appAwait : List CEvent := if hasApp then [CEvent.awaitAppReady] else []
  let added := addComponentRun hasEntity componentName
  { trace := appAwait ++ added.1 ++ [CEvent.initComponent, CEvent.readyResolved]
    component := added.2
    ready := true }

/-! ## ComponentElement disconnection (lines 1116-1122) -/

/-- The engine component reference held by a component element, recording the
id of the entity that still holds it (`none` when the component has been
detached and `component.entity` is null). -/
structure EngineComponentRef where
  entity : Option Nat
  deriving DecidableEq, Repr

/-- The state of a component element relevant to `disconnectedCallback`. -/
structure CompElemState where
  componentName : String
  component : Option EngineComponentRef
  deriving DecidableEq, Repr

/-- An engine call performed during disconnection. -/
inductive RemoveEvent where
  | removeComponent (entityId : Nat) (name : String)
  deriving DecidableEq, Repr

/-- `ComponentElement.disconnectedCallback`: when `this.component` is
non-null and still attached to an entity, call
`entity.removeComponent(componentName)` and clear the stored reference;
otherwise do nothing. -/
def disconnectedCallbackRun (s : CompElemState) :
    CompElemState × List RemoveEvent :=
  match s.component with
  | some c =>
    match c.entity with
    | some eid =>
      ({ s with component := none },
        [RemoveEvent.removeComponent eid s.componentName])
    | none => (s, [])
  | none => (s, [])

/-! ## ComponentElement enabled attribute (lines 1126-1152) -/

/-- The engine component state touched by the `enabled` setter. -/
structure EngineComponentState where
  enabled : Bool
  deriving DecidableEq, Repr

/-- The element state touched by the `enabled` setter: the `_enabled` field
and the optional engine component. -/
structure ComponentEnabledState where
  enabled : Bool
  component : Option EngineComponentState
  deriving DecidableEq, Repr

/-- The `enabled` setter (lines 1130-1135): store the value and, when the
engine component exists, forward the value to its `enabled` setter. -/
def setEnabled (s : ComponentEnabledState) (v : Bool) : ComponentEnabledState :=
  { enabled := v
    component := s.component.map (fun c => { c with enabled := v }) }

/-- `ComponentElement.attributeChangedCallback` (lines 1146-1152): for the
`enabled` attribute, assign `newValue !== "false"` to the `enabled`
property. Other attribute names are untouched by the base class. -/
def attributeChangedCallbackRun (s : ComponentEnabledState) (name : String)
    (newValue : JSStr) : ComponentEnabledState :=
  if name = "enabled" then setEnabled s (newValue != some "false") else s

/-! ## LightComponentElement type setter (lines 2449-2458) -/

/-- The engine light component state touched by the `type` setter. -/
structure LightComponentRef where
  ltype : String
  deriving DecidableEq, Repr

/-- The pc-light element state touched by the `type` setter: the `_type`
field and the optional engine light component. -/
structure LightElemState where
  elemType : String
  component : Option LightComponentRef
  deriving DecidableEq, Repr

/-- The `type` setter of `LightComponentElement`: when the value is not one
of "directional", "omni", "spot", warn (the returned Bool) and return
without changing anything; otherwise store the value and, when the engine
component exists, forward it. -/
def lightSetTypeRun (s : LightElemState) (value : String) :
    LightElemState × Bool :=
  if !(["directional", "omni", "spot"].contains value) then
    (s, true)
  else
    ({ elemType := value
       component := s.component.map (fun _ => { ltype := value }) }, false)

/-! ## AssetElement.createAsset (lines 985-1044) and the pc-asset loop of
AppElement.connectedCallback (lines 148-156) -/

/-- The file-extension to asset-type map (lines 985-1003). -/
def extToType : List (String × String) :=
  [("bin", "binary"), ("css", "css"), ("frag", "shader"),
   ("glb", "container"), ("glsl", "shader"), ("hdr", "texture"),
   ("html", "html"), ("jpg", "texture"), ("js", "script"),
   ("json", "json"), ("mp3", "audio"), ("mjs", "script"),
   ("ply", "gsplat"), ("png", "texture"), ("txt", "text"),
   ("vert", "shader"), ("webp", "texture")]

/-- `extToType.get(ext)` on the Map above. -/
def extToTypeGet (ext : String) : Option String :=
  (extToType.find? (fun p => p.1 == ext)).map Prod.snd

/-- An engine `Asset` as constructed by `createAsset`:
`new Asset(id, type, \x7b url: src \x7d)` followed by
`asset.preload = !this._lazy`. -/
structure AssetV where
  id : String
  type : String
  url : String
  preload : Bool
  deriving DecidableEq, Repr

/-- `AssetElement.createAsset` (lines 1022-1038): read the id, src and type
attributes; when the type attribute is falsy, infer the type from the last
dot-separated piece of src via `extToType`; when no type results, warn (the
returned Bool) and leave `this.asset` null; otherwise construct the asset. -/
def createAssetRun (idAttr srcAttr typeAttr : JSStr) (lazy : Bool) :
    Option AssetV × Bool :=
  let id := jsOr idAttr ""
  let src := jsOr srcAttr ""
  let inferred : JSStr :=
    if strTruthy typeAttr then typeAttr
    else extToTypeGet (jsOr (jsSplit '.' src).getLast? "")
  if strTruthy inferred then
    (some { id := id, type := (inferred.getD ""), url := src, preload := !lazy },
      false)
  else
    (none, true)

/-- Attributes of one pc-asset element. -/
structure AssetElemAttrs where
  id : JSStr
  src : JSStr
  type : JSStr
  lazy : Bool
  deriving DecidableEq, Repr

/-- The pc-asset loop of `AppElement.connectedCallback` (lines 148-156):
call `createAsset` on each element in document order and add the asset to the
registry when one was created. -/
def setupAppAssets (elems : List AssetElemAttrs) : List AssetV :=
  elems.filterMap (fun e => (createAssetRun e.id e.src e.type e.lazy).1)

/-! ## Attribute parsers (lines 451-662)

JavaScript `Number` parsing of a string is browser functionality outside
this repository, so the parsers are parameterised over an abstract
`num : String → ℚ`. The engine `Vec3` and `Color` constructors are external
collaborators; they are modelled by constructors recording exactly the
arguments the glue code passes them, plus the documented component accessor
for a `Vec3` built from an array of three numbers. -/

/-- An engine `Vec3` as constructed by the glue code: `new Vec3(components)`
with an array argument. -/
inductive EngineVec3 where
  | ofArray (components : List ℚ)
  deriving DecidableEq, Repr

/-- Components of an engine `Vec3` built from an array. Modelled from the
engine documentation (external collaborator): a `Vec3` constructed from an
array of exactly three numbers has those numbers as its x, y, z components
in order. -/
def EngineVec3.xyz : EngineVec3 → Option (ℚ × ℚ × ℚ)
  | .ofArray [a, b, c] => some (a, b, c)
  | .ofArray _ => none

/-- An engine `Color` as constructed by the glue code: either
`new Color().fromString(s)` or `new Color(components)`. -/
inductive EngineColor where
  | fromString (s : String)
  | ofArray (components : List ℚ)
  deriving DecidableEq, Repr

/-- `parseVec3` (lines 649-652): split the attribute string on spaces, map
`Number` over the pieces and hand the resulting array to the `Vec3`
constructor. -/
def parseVec3 (num : String → ℚ) (value : String) : EngineVec3 :=
  .ofArray ((jsSplit ' ' value).map num)

/-- The `CSS_COLORS` color-name table (lines 451-600). -/
def cssColors : List (String × String) :=
  [("aliceblue", "#f0f8ff"), ("antiquewhite", "#faebd7"), ("aqua", "#00ffff"),
   ("aquamarine", "#7fffd4"), ("azure", "#f0ffff"), ("beige", "#f5f5dc"),
   ("bisque", "#ffe4c4"), ("black", "#000000"), ("blanchedalmond", "#ffebcd"),
   ("blue", "#0000ff"), ("blueviolet", "#8a2be2"), ("brown", "#a52a2a"),
   ("burlywood", "#deb887"), ("cadetblue", "#5f9ea0"), ("chartreuse", "#7fff00"),
   ("chocolate", "#d2691e"), ("coral", "#ff7f50"), ("cornflowerblue", "#6495ed"),
   ("cornsilk", "#fff8dc"), ("crimson", "#dc143c"), ("cyan", "#00ffff"),
   ("darkblue", "#00008b"), ("darkcyan", "#008b8b"), ("darkgoldenrod", "#b8860b"),
   ("darkgray", "#a9a9a9"), ("darkgreen", "#006400"), ("darkgrey", "#a9a9a9"),
   ("darkkhaki", "#bdb76b"), ("darkmagenta", "#8b008b"),
   ("darkolivegreen", "#556b2f"), ("darkorange", "#ff8c00"),
   ("darkorchid", "#9932cc"), ("darkred", "#8b0000"), ("darksalmon", "#e9967a"),
   ("darkseagreen", "#8fbc8f"), ("darkslateblue", "#483d8b"),
   ("darkslategray", "#2f4f4f"), ("darkslategrey", "#2f4f4f"),
   ("darkturquoise", "#00ced1"), ("darkviolet", "#9400d3"),
   ("deeppink", "#ff1493"), ("deepskyblue", "#00bfff"), ("dimgray", "#696969"),
   ("dimgrey", "#696969"), ("dodgerblue", "#1e90ff"), ("firebrick", "#b22222"),
   ("floralwhite", "#fffaf0"), ("forestgreen", "#228b22"),
   ("fuchsia", "#ff00ff"), ("gainsboro", "#dcdcdc"), ("ghostwhite", "#f8f8ff"),
   ("gold", "#ffd700"), ("goldenrod", "#daa520"), ("gray", "#808080"),
   ("green", "#008000"), ("greenyellow", "#adff2f"), ("grey", "#808080"),
   ("honeydew", "#f0fff0"), ("hotpink", "#ff69b4"), ("indianred", "#cd5c5c"),
   ("indigo", "#4b0082"), ("ivory", "#fffff0"), ("khaki", "#f0e68c"),
   ("lavender", "#e6e6fa"), ("lavenderblush", "#fff0f5"),
   ("lawngreen", "#7cfc00"), ("lemonchiffon", "#fffacd"),
   ("lightblue", "#add8e6"), ("lightcoral", "#f08080"),
   ("lightcyan", "#e0ffff"), ("lightgoldenrodyellow", "#fafad2"),
   ("lightgray", "#d3d3d3"), ("lightgreen", "#90ee90"),
   ("lightgrey", "#d3d3d3"), ("lightpink", "#ffb6c1"),
   ("lightsalmon", "#ffa07a"), ("lightseagreen", "#20b2aa"),
   ("lightskyblue", "#87cefa"), ("lightslategray", "#778899"),
   ("lightslategrey", "#778899"), ("lightsteelblue", "#b0c4de"),
   ("lightyellow", "#ffffe0"), ("lime", "#00ff00"), ("limegreen", "#32cd32"),
   ("linen", "#faf0e6"), ("magenta", "#ff00ff"), ("maroon", "#800000"),
   ("mediumaquamarine", "#66cdaa"), ("mediumblue", "#0000cd"),
   ("mediumorchid", "#ba55d3"), ("mediumpurple", "#9370db"),
   ("mediumseagreen", "#3cb371"), ("mediumslateblue", "#7b68ee"),
   ("mediumspringgreen", "#00fa9a"), ("mediumturquoise", "#48d1cc"),
   ("mediumvioletred", "#c71585"), ("midnightblue", "#191970"),
   ("mintcream", "#f5fffa"), ("mistyrose", "#ffe4e1"), ("moccasin", "#ffe4b5"),
   ("navajowhite", "#ffdead"), ("navy", "#000080"), ("oldlace", "#fdf5e6"),
   ("olive", "#808000"), ("olivedrab", "#6b8e23"), ("orange", "#ffa500"),
   ("orangered", "#ff4500"), ("orchid", "#da70d6"),
   ("palegoldenrod", "#eee8aa"), ("palegreen", "#98fb98"),
   ("paleturquoise", "#afeeee"), ("palevioletred", "#db7093"),
   ("papayawhip", "#ffefd5"), ("peachpuff", "#ffdab9"), ("peru", "#cd853f"),
   ("pink", "#ffc0cb"), ("plum", "#dda0dd"), ("powderblue", "#b0e0e6"),
   ("purple", "#800080"), ("rebeccapurple", "#663399"), ("red", "#ff0000"),
   ("rosybrown", "#bc8f8f"), ("royalblue", "#4169e1"),
   ("saddlebrown", "#8b4513"), ("salmon", "#fa8072"),
   ("sandybrown", "#f4a460"), ("seagreen", "#2e8b57"), ("seashell", "#fff5ee"),
   ("sienna", "#a0522d"), ("silver", "#c0c0c0"), ("skyblue", "#87ceeb"),
   ("slateblue", "#6a5acd"), ("slategray", "#708090"),
   ("slategrey", "#708090"), ("snow", "#fffafa"), ("springgreen", "#00ff7f"),
   ("steelblue", "#4682b4"), ("tan", "#d2b48c"), ("teal", "#008080"),
   ("thistle", "#d8bfd8"), ("tomato", "#ff6347"), ("turquoise", "#40e0d0"),
   ("violet", "#ee82ee"), ("wheat", "#f5deb3"), ("white", "#ffffff"),
   ("whitesmoke", "#f5f5f5"), ("yellow", "#ffff00"),
   ("yellowgreen", "#9acd32")]

/-- The property access `CSS_COLORS[name]`. -/
def cssColorsGet (name : String) : Option String :=
  (cssColors.find? (fun p => p.1 == name)).map Prod.snd

/-- `parseColor` (lines 609-620): first try the lower-cased value as a CSS
color name and return `new Color().fromString(hex)` when the lookup yields a
truthy value; otherwise, when the value starts with a hash, return
`new Color().fromString(value)`; otherwise split on spaces, map `Number`
and return `new Color(components)`. -/
def parseColor (num : String → ℚ) (value : String) : EngineColor :=
  let hexColor := cssColorsGet (asciiToLower value)
  if strTruthy hexColor then
    EngineColor.fromString (hexColor.getD "")
  else if jsStartsWith value "#" then
    EngineColor.fromString value
  else
    EngineColor.ofArray ((jsSplit ' ' value).map num)

/-! ## Entity creation and hierarchy phase of AppElement.connectedCallback
(src/unnamed/part_000, lines 162-171 and 706-765)

The pc-entity elements below the pc-app element are modelled as a list in
document order; each node records the index of its closest ancestor
pc-entity element, or `none` when there is no such ancestor. In a real
document an ancestor element starts before each of its descendants, so the
parent index of a node is smaller than its own index; `DocWF` states this. -/

/-- One pc-entity element: the index (in document order) of its closest
ancestor pc-entity, or `none`. -/
structure EntityNode where
  parent : Option Nat
  deriving DecidableEq, Repr

/-- Document order places every ancestor before its descendants. -/
def DocWF (doc : List EntityNode) : Prop :=
  ∀ (i : Nat) (n : EntityNode) (j : Nat),
    doc[i]? = some n → n.parent = some j → j < i

/-- An observable step of the entity phase: engine entity creation
(`createEntity`), attachment via `addChild` (to the engine entity of the
closest ancestor pc-entity when `some`, to `app.root` when `none`), and the
resolution of the element readiness promise by `_onReady`. -/
inductive AEvent where
  | createEntity (i : Nat)
  | attach (i : Nat) (target : Option Nat)
  | entityReady (i : Nat)
  deriving DecidableEq, Repr

/-- The attachment target chosen by `EntityElement.buildHierarchy` (lines
754-765): the closest ancestor pc-entity when it has an engine entity (it
does, since the creation pass ran over every pc-entity first), else the
application root. -/
def attachTarget (doc : List EntityNode) (i : Nat) : Option Nat :=
  match doc[i]? with
  | some n => n.parent
  | none => none

/-- The two steps `EntityElement.buildHierarchy` performs for element `i`:
attach the engine entity, then call `_onReady`. -/
def buildSteps (doc : List EntityNode) (i : Nat) : List AEvent :=
  [AEvent.attach i (attachTarget doc i), AEvent.entityReady i]

/-- The entity phase of `AppElement.connectedCallback` (lines 162-171):
`createEntity` on every pc-entity element in document order, then
`buildHierarchy` on every pc-entity element in document order. -/
def entityPhaseTrace (doc : List EntityNode) : List AEvent :=
  (List.range doc.length).map AEvent.createEntity ++
    (List.range doc.length).flatMap (buildSteps doc)

/-! ## FrameScene wheel zoom (src/js/app.js, lines 72-118) -/

/-- Wheel-related fields of `FrameScene` (lines 73-78). `none` models the
null initial value of `targetDistance` and `currentDistance`. -/
structure WheelState where
  targetDistance : Option ℚ
  currentDistance : Option ℚ
  deriving DecidableEq, Repr

/-- The constant `this.zoomSpeed = 0.15`. -/
def zoomSpeed : ℚ := 15 / 100

/-- The constant `this.minDistance = 0.5`. -/
def minDistance : ℚ := 1 / 2

/-- The constant `this.maxDistance = 50`. -/
def maxDistance : ℚ := 50

/-- `Math.sign` on a (non-NaN) number. -/
def qsign (x : ℚ) : ℚ := if 0 < x then 1 else if x < 0 then -1 else 0

/-- `FrameScene.handleWheel` (lines 86-118), restricted to the fields the
claim is about. `initDistance` abstracts the distance computed on the first
call (twice the half-extent length of the gsplat bounding box when one
exists, 5 otherwise); `deltaY` is the wheel event delta. After the lazy
initialisation, `targetDistance` is multiplied by `1 - delta` with
`delta = -sign(deltaY) * zoomSpeed` and clamped to
`[minDistance, maxDistance]`. -/
def handleWheel (initDistance deltaY : ℚ) (s : WheelState) : WheelState :=
  let s1 : WheelState :=
    match s.targetDistance with
    | none =>
      { targetDistance := some initDistance, currentDistance := some initDistance }
    | some _ => s
  let t := s1.targetDistance.getD 0
  let delta := -(qsign deltaY) * zoomSpeed
  { s1 with
    targetDistance := some (max minDistance (min maxDistance (t * (1 - delta)))) }

/-- A sequence of wheel events, each given by the initialisation distance it
would use and its deltaY. -/
def runWheel (events : List (ℚ × ℚ)) (s : WheelState) : WheelState :=
  events.foldl (fun st e => handleWheel e.1 e.2 st) s

/-! ## XR enter / exit handlers (src/js/app.js, lines 375-411) -/

/-- The state touched by the immersive-ar enter / exit handlers: the XR
camera clear color (four components), the pc-sky element (presence, its type
property, its type attribute), the module-level saved clear color and saved
sky type, and `app.autoRender`. `none` in a `JSStr` field models JS null or
an absent attribute. -/
structure XRState where
  clearColor : ℚ × ℚ × ℚ × ℚ
  skyPresent : Bool
  skyType : JSStr
  skyAttr : JSStr
  savedClear : ℚ × ℚ × ℚ × ℚ
  savedSky : JSStr
  autoRender : Bool
  deriving DecidableEq, Repr

/-- `new pc.Color(0, 0, 0, 0)`. -/
def transparentBlack : ℚ × ℚ × ℚ × ℚ := (0, 0, 0, 0)

/-- `sky.removeAttribute("type")`: when the attribute is present, remove it,
which fires `SkyElement.attributeChangedCallback` with a null new value and
so assigns null to the type property (lines 4360-4386); when the attribute
is absent, nothing happens. -/
def skyRemoveTypeAttr (s : XRState) : XRState :=
  match s.skyAttr with
  | some _ => { s with skyAttr := none, skyType := none }
  | none => s

/-- The `app.xr.on("start")` handler (lines 379-393), immersive-ar branch:
save the camera clear color and replace it with transparent black; when a
pc-sky element exists and its type is not "none", save its type and set it
to "none"; set `autoRender` to true. -/
def xrStart (s : XRState) : XRState :=
  let s1 := { s with savedClear := s.clearColor, clearColor := transparentBlack }
  let s2 :=
    if s1.skyPresent && (s1.skyType != some "none") then
      { s1 with savedSky := s1.skyType, skyType := some "none" }
    else s1
  { s2 with autoRender := true }

/-- The `app.xr.on("end")` handler (lines 395-411), immersive-ar branch:
restore the saved clear color; when a pc-sky element exists, restore the
saved sky type when it is truthy (and reset the saved value to null), else
remove the type attribute; set `autoRender` to false. -/
def xrEnd (s : XRState) : XRState :=
  let s1 := { s with clearColor := s.savedClear }
  let s2 :=
    if s1.skyPresent then
      if strTruthy s1.savedSky then
        { s1 with skyType := s1.savedSky, savedSky := none }
      else
        skyRemoveTypeAttr s1
    else s1
  { s2 with autoRender := false }

/-! ## Theorems -/

/-- Claim C1: when a component custom element with ancestor pc-app and
pc-entity elements is connected to the document, its callback first awaits
the app readiness promise, then the entity readiness promise, and only then
calls the engine addComponent; the trace contains no engine component
creation at any position before both awaited promises. -/
theorem connectedCallback_awaits_before_addComponent (n : String) :
    (connectedCallbackRun true true n).trace =
      [CEvent.awaitAppReady, CEvent.awaitEntityReady,
        CEvent.engineAddComponent n, CEvent.initComponent,
        CEvent.readyResolved] ∧
    ∀ k m, (connectedCallbackRun true true n).trace.get? k =
        some (CEvent.engineAddComponent m) →
      (∃ i, i < k ∧ (connectedCallbackRun true true n).trace.get? i =
        some CEvent.awaitAppReady) ∧
      (∃ j, j < k ∧ (connectedCallbackRun true true n).trace.get? j =
        some CEvent.awaitEntityReady) := by
  refine ⟨rfl, ?_⟩
  intro k m h
  have hk : k = 2 := by
    rcases k with _ | _ | _ | _ | _ | k <;>
      simp [connectedCallbackRun, addComponentRun, List.get?] at h ⊢
  subst hk
  exact ⟨⟨0, by omega, rfl⟩, ⟨1, by omega, rfl⟩⟩

/-- Witness for C1 at a concrete component name. -/
theorem connectedCallback_awaits_witness :
    (connectedCallbackRun true true "light").trace.get? 2 =
      some (CEvent.engineAddComponent "light") ∧
    (∃ i, i < 2 ∧ (connectedCallbackRun true true "light").trace.get? i =
      some CEvent.awaitAppReady) :=
  ⟨rfl, ((connectedCallback_awaits_before_addComponent "light").2 2 "light" rfl).1⟩

/-- Claim C2: disconnecting a component element whose engine component
exists and is still attached calls removeComponent with the component name
on that entity and clears the stored reference; a second disconnection with
no intervening reconnection performs no engine call. -/
theorem disconnectedCallback_removes_once (s : CompElemState)
    (c : EngineComponentRef) (eid : Nat)
    (hc : s.component = some c) (he : c.entity = some eid) :
    disconnectedCallbackRun s =
      ({ s with component := none },
        [RemoveEvent.removeComponent eid s.componentName]) ∧
    disconnectedCallbackRun { s with component := none } =
      ({ s with component := none }, []) := by
  constructor
  · simp [disconnectedCallbackRun, hc, he]
  · simp [disconnectedCallbackRun]

/-- Witness for C2 at a concrete light component state. -/
theorem disconnectedCallback_removes_witness :
    disconnectedCallbackRun ⟨"light", some ⟨some 7⟩⟩ =
      (⟨"light", none⟩, [RemoveEvent.removeComponent 7 "light"]) ∧
    disconnectedCallbackRun ⟨"light", none⟩ = (⟨"light", none⟩, []) :=
  (disconnectedCallback_removes_once ⟨"light", some ⟨some 7⟩⟩ ⟨some 7⟩ 7 rfl rfl)

/-- Claim C4: assigning a string outside
directional / omni / spot to the light type property warns and changes
neither the stored type nor the engine component. -/
theorem lightType_invalid_noop (s : LightElemState) (v : String)
    (h : (["directional", "omni", "spot"].contains v) = false) :
    lightSetTypeRun s v = (s, true) := by
  simp only [lightSetTypeRun, h, Bool.not_false, if_true]

/-- Witness for C4 at the invalid value "point". -/
theorem lightType_invalid_witness :
    ((["directional", "omni", "spot"].contains "point") = false) ∧
    lightSetTypeRun ⟨"directional", some ⟨"directional"⟩⟩ "point" =
      (⟨"directional", some ⟨"directional"⟩⟩, true) :=
  ⟨by decide, lightType_invalid_noop _ "point" (by decide)⟩

/-- Claim C7: the attributeChangedCallback of a component element sets the
enabled property to (value !== "false") and, when the engine component
exists, forwards exactly that boolean; in particular "False", "0" and the
empty string all enable. -/
theorem enabledAttr_forwarding (s : ComponentEnabledState) (v : JSStr) :
    (attributeChangedCallbackRun s "enabled" v).enabled = (v != some "false") ∧
    (∀ c, s.component = some c →
      (attributeChangedCallbackRun s "enabled" v).component =
        some { enabled := (v != some "false") }) ∧
    ((some "False" : JSStr) != some "false") = true ∧
    ((some "0" : JSStr) != some "false") = true ∧
    ((some "" : JSStr) != some "false") = true := by
  refine ⟨?_, ?_, by decide, by decide, by decide⟩
  · simp [attributeChangedCallbackRun, setEnabled]
  · intro c hc
    simp [attributeChangedCallbackRun, setEnabled, hc]

/-- Witness for C7 at a concrete state with an engine component. -/
theorem enabledAttr_forwarding_witness :
    (attributeChangedCallbackRun ⟨false, some ⟨false⟩⟩ "enabled"
        (some "0")).enabled = ((some "0" : JSStr) != some "false") ∧
    (attributeChangedCallbackRun ⟨false, some ⟨false⟩⟩ "enabled"
        (some "0")).component =
      some ⟨((some "0" : JSStr) != some "false")⟩ :=
  ⟨(enabledAttr_forwarding ⟨false, some ⟨false⟩⟩ (some "0")).1,
    (enabledAttr_forwarding ⟨false, some ⟨false⟩⟩ (some "0")).2.1 ⟨false⟩ rfl⟩

/-- Claim C10: a component element connected with no ancestor pc-entity
still completes its callback and resolves its readiness promise while the
stored component stays null and no engine component is created. -/
theorem connect_without_entity (hasApp : Bool) (n : String) :
    (connectedCallbackRun hasApp false n).component = none ∧
    (connectedCallbackRun hasApp false n).ready = true ∧
    CEvent.readyResolved ∈ (connectedCallbackRun hasApp false n).trace ∧
    ∀ m, CEvent.engineAddComponent m ∉ (connectedCallbackRun hasApp false n).trace := by
  cases hasApp <;> simp [connectedCallbackRun, addComponentRun]

/-- Witness for C10 with an ancestor app present. -/
theorem connect_without_entity_witness :
    (connectedCallbackRun true false "camera").component = none ∧
    CEvent.engineAddComponent "camera" ∉
      (connectedCallbackRun true false "camera").trace :=
  ⟨(connect_without_entity true "camera").1,
    (connect_without_entity true "camera").2.2.2 "camera"⟩

/-- Claim C3: for a pc-asset element whose src extension is not in the
extension map and which has no truthy type attribute, createAsset warns and
creates no asset, and the application setup with that element present adds
exactly the assets of the other elements, in order; no error propagates. -/
theorem createAsset_unsupported_skipped (e : AssetElemAttrs)
    (h1 : strTruthy e.type = false)
    (h2 : extToTypeGet (jsOr (jsSplit '.' (jsOr e.src "")).getLast? "") = none) :
    createAssetRun e.id e.src e.type e.lazy = (none, true) ∧
    ∀ pre post, setupAppAssets (pre ++ e :: post) =
      setupAppAssets pre ++ setupAppAssets post := by
  have hfail : createAssetRun e.id e.src e.type e.lazy = (none, true) := by
    simp only [createAssetRun, h1, Bool.false_eq_true, if_false, h2]
    rfl
  refine ⟨hfail, ?_⟩
  intro pre post
  have hnone : (createAssetRun e.id e.src e.type e.lazy).1 = none := by
    rw [hfail]
  simp [setupAppAssets, List.filterMap_append, List.filterMap_cons, hnone]

/-- Witness for C3 at src "model.xyz" with no type attribute, between two
supported assets. -/
theorem createAsset_unsupported_witness :
    strTruthy (none : JSStr) = false ∧
    extToTypeGet (jsOr (jsSplit '.' (jsOr (some "model.xyz") "")).getLast? "")
      = none ∧
    createAssetRun none (some "model.xyz") none false = (none, true) ∧
    setupAppAssets [⟨some "a", some "a.png", none, false⟩,
        ⟨none, some "model.xyz", none, false⟩,
        ⟨some "b", some "b.ply", none, true⟩] =
      setupAppAssets [⟨some "a", some "a.png", none, false⟩] ++
        setupAppAssets [⟨some "b", some "b.ply", none, true⟩] := by
  have h := createAsset_unsupported_skipped ⟨none, some "model.xyz", none, false⟩
    rfl (by decide)
  exact ⟨rfl, by decide, h.1,
    h.2 [⟨some "a", some "a.png", none, false⟩] [⟨some "b", some "b.ply", none, true⟩]⟩

/-- Claim C6: parseVec3 on a string splitting into three pieces yields a
Vec3 whose components are the three parsed numbers in order; parseColor
first resolves the lower-cased value as a CSS color name, otherwise treats a
value starting with a hash as a hex string, and otherwise splits on spaces
into numeric components of a Color. -/
theorem parse_attribute_values (num : String → ℚ) (v3 x y z : String)
    (h3 : jsSplit ' ' v3 = [x, y, z])
    (cname hex : String) (hn1 : cssColorsGet (asciiToLower cname) = some hex)
    (hn2 : hex ≠ "")
    (chex : String) (hh1 : cssColorsGet (asciiToLower chex) = none)
    (hh2 : jsStartsWith chex "#" = true)
    (cplain : String) (hp1 : cssColorsGet (asciiToLower cplain) = none)
    (hp2 : jsStartsWith cplain "#" = false) :
    (parseVec3 num v3).xyz = some (num x, num y, num z) ∧
    parseColor num cname = EngineColor.fromString hex ∧
    parseColor num chex = EngineColor.fromString chex ∧
    parseColor num cplain = EngineColor.ofArray ((jsSplit ' ' cplain).map num) := by
  refine ⟨?_, ?_, ?_, ?_⟩
  · simp [parseVec3, h3, EngineVec3.xyz]
  · simp [parseColor, hn1, strTruthy, hn2]
  · simp [parseColor, hh1, strTruthy, hh2]
  · simp [parseColor, hp1, strTruthy, hp2]

/-- Witness for C6 at concrete attribute strings, with a constant stand-in
for the abstract Number parsing. -/
theorem parse_attribute_values_witness :
    (jsSplit ' ' "1 2 3" = ["1", "2", "3"]) ∧
    (parseVec3 (fun _ => (0 : ℚ)) "1 2 3").xyz = some (0, 0, 0) ∧
    parseColor (fun _ => (0 : ℚ)) "RED" = EngineColor.fromString "#ff0000" ∧
    parseColor (fun _ => (0 : ℚ)) "#123" = EngineColor.fromString "#123" ∧
    parseColor (fun _ => (0 : ℚ)) "0.5 0 1" =
      EngineColor.ofArray ((jsSplit ' ' "0.5 0 1").map (fun _ => (0 : ℚ))) := by
  have h := parse_attribute_values (fun _ => (0 : ℚ)) "1 2 3" "1" "2" "3"
    (by decide) "RED" "#ff0000" (by decide) (by decide)
    "#123" (by decide) (by decide)
    "0.5 0 1" (by decide) (by decide)
  exact ⟨by decide, h.1, h.2.1, h.2.2.1, h.2.2.2⟩

/-- One handleWheel call always leaves targetDistance set and clamped to
the closed interval between minDistance and maxDistance, whatever the
previous state. -/
theorem handleWheel_bounds (i dy : ℚ) (s : WheelState) :
    ∃ t, (handleWheel i dy s).targetDistance = some t ∧
      minDistance ≤ t ∧ t ≤ maxDistance := by
  refine ⟨_, rfl, le_max_left _ _, ?_⟩
  refine max_le ?_ (min_le_left _ _)
  norm_num [minDistance, maxDistance]

/-- Any nonempty sequence of wheel events, from any starting state, ends
with targetDistance in the interval. -/
theorem runWheel_bounds (events : List (ℚ × ℚ)) (s : WheelState)
    (h : events ≠ []) :
    ∃ t, (runWheel events s).targetDistance = some t ∧
      minDistance ≤ t ∧ t ≤ maxDistance := by
  induction events generalizing s with
  | nil => exact absurd rfl h
  | cons e es ih =>
    show ∃ t, (runWheel es (handleWheel e.1 e.2 s)).targetDistance = some t ∧ _
    rcases es with _ | ⟨e2, es⟩
    · exact handleWheel_bounds e.1 e.2 s
    · exact ih (handleWheel e.1 e.2 s) (by simp)

/-- Claim C8: starting from the initial state (both distances null), after
every invocation of handleWheel the zoom target distance lies in
[minDistance, maxDistance] = [0.5, 50]; no sequence of wheel events can
drive it outside. -/
theorem wheel_targetDistance_in_range (events : List (ℚ × ℚ))
    (h : events ≠ []) :
    ∃ t, (runWheel events ⟨none, none⟩).targetDistance = some t ∧
      minDistance ≤ t ∧ t ≤ maxDistance :=
  runWheel_bounds events ⟨none, none⟩ h

/-- Witness for C8: two concrete wheel events (one zoom in, one zoom out). -/
theorem wheel_targetDistance_witness :
    ([((5 : ℚ), (3 : ℚ)), (5, -2)] ≠ ([] : List (ℚ × ℚ))) ∧
    ∃ t, (runWheel [((5 : ℚ), (3 : ℚ)), (5, -2)] ⟨none, none⟩).targetDistance
        = some t ∧ minDistance ≤ t ∧ t ≤ maxDistance :=
  ⟨by simp, wheel_targetDistance_in_range [((5 : ℚ), (3 : ℚ)), (5, -2)] (by simp)⟩

/-- Counterexample for claim C9 as stated: with a pc-sky element whose type
attribute is present with value "none" (so its type property is "none"
before entering AR), the enter-then-exit round trip does not leave the sky
type equal to its pre-entry value: removing the type attribute on exit
fires attributeChangedCallback with a null new value, which sets the type
property to null. -/
theorem xr_roundTrip_counterexample :
    (xrEnd (xrStart
      { clearColor := (1, 1, 1, 1), skyPresent := true,
        skyType := some "none", skyAttr := some "none",
        savedClear := (0, 0, 0, 1), savedSky := none,
        autoRender := false })).skyType = none ∧
    ¬ (xrEnd (xrStart
      { clearColor := (1, 1, 1, 1), skyPresent := true,
        skyType := some "none", skyAttr := some "none",
        savedClear := (0, 0, 0, 1), savedSky := none,
        autoRender := false })).skyType = some "none" := by
  constructor
  · rfl
  · intro hcontra
    exact Option.noConfusion hcontra

/-- The start handler saves the clear color whatever the sky state is. -/
theorem xrStart_savedClear (s : XRState) :
    (xrStart s).savedClear = s.clearColor := by
  unfold xrStart
  dsimp only
  split <;> rfl

/-- The end handler restores the saved clear color whatever the sky state
is: neither sky branch touches the clear color. -/
theorem xrEnd_clearColor (s : XRState) :
    (xrEnd s).clearColor = s.savedClear := by
  unfold xrEnd skyRemoveTypeAttr
  dsimp only
  split
  · split
    · rfl
    · split <;> rfl
  · rfl

/-- Claim C9, amended: entering immersive-ar saves the clear color and the
sky type, replaces them with transparent black and "none", and sets
autoRender; exiting restores them and clears autoRender. The round trip
restores the clear color and sets autoRender to false unconditionally, and
restores the sky type provided the saved-type variable starts out null and
either the pre-entry sky type is a truthy string other than "none", or it
is "none" with no type attribute present on the element (when the type
attribute is present with value "none", the round trip instead leaves the
sky type null). -/
theorem xr_roundTrip_restores (s : XRState) :
    (xrEnd (xrStart s)).clearColor = s.clearColor ∧
    (xrEnd (xrStart s)).autoRender = false ∧
    (s.savedSky = none →
      (strTruthy s.skyType = true ∧ s.skyType ≠ some "none") ∨
        (s.skyType = some "none" ∧ s.skyAttr = none) →
      (xrEnd (xrStart s)).skyType = s.skyType) := by
  refine ⟨?_, rfl, ?_⟩
  · rw [xrEnd_clearColor, xrStart_savedClear]
  · intro hsaved hty
    obtain ⟨cc, sp, st, sa, sc, ss, ar⟩ := s
    simp only at hsaved
    subst hsaved
    rcases hty with ⟨htr, hne⟩ | ⟨h1, h2⟩
    · simp only at htr hne
      cases sp
      · simp [xrStart, xrEnd, skyRemoveTypeAttr, strTruthy]
      · simp only [xrStart, xrEnd, skyRemoveTypeAttr, Bool.true_and,
          bne_iff_ne, ne_eq, hne, not_false_eq_true, if_true, htr]
    · simp only at h1 h2
      subst h1; subst h2
      cases sp <;> simp [xrStart, xrEnd, skyRemoveTypeAttr, strTruthy]

/-- Witness for C9 at a sky with a truthy non-none type: the round trip
restores both the clear color and the sky type. -/
theorem xr_roundTrip_witness :
    ((strTruthy (some "procedural") = true ∧
        (some "procedural" : JSStr) ≠ some "none")) ∧
    (xrEnd (xrStart
      { clearColor := (2, 3, 4, 5), skyPresent := true,
        skyType := some "procedural", skyAttr := some "procedural",
        savedClear := (0, 0, 0, 1), savedSky := none,
        autoRender := false })).clearColor = (2, 3, 4, 5) ∧
    (xrEnd (xrStart
      { clearColor := (2, 3, 4, 5), skyPresent := true,
        skyType := some "procedural", skyAttr := some "procedural",
        savedClear := (0, 0, 0, 1), savedSky := none,
        autoRender := false })).skyType = some "procedural" :=
  ⟨⟨by decide, by decide⟩,
    (xr_roundTrip_restores
      { clearColor := (2, 3, 4, 5), skyPresent := true,
        skyType := some "procedural", skyAttr := some "procedural",
        savedClear := (0, 0, 0, 1), savedSky := none,
        autoRender := false }).1,
    (xr_roundTrip_restores
      { clearColor := (2, 3, 4, 5), skyPresent := true,
        skyType := some "procedural", skyAttr := some "procedural",
        savedClear := (0, 0, 0, 1), savedSky := none,
        autoRender := false }).2.2 rfl (Or.inl ⟨by decide, by decide⟩)⟩

/-- No creation event occurs in the buildHierarchy pass. -/
theorem createEntity_not_in_build (doc : List EntityNode) (m k : Nat) :
    AEvent.createEntity k ∉ (List.range m).flatMap (buildSteps doc) := by
  simp [List.mem_flatMap, buildSteps]

/-- No attachment event occurs in the creation pass. -/
theorem attach_not_in_creates (m i : Nat) (t : Option Nat) :
    AEvent.attach i t ∉ (List.range m).map AEvent.createEntity := by
  simp

/-- Within the buildHierarchy pass, the readiness of an earlier element
precedes the readiness of a later element. -/
theorem ready_pair_sublist (doc : List EntityNode) (i j m : Nat)
    (hij : i < j) (hj : j < m) :
    [AEvent.entityReady i, AEvent.entityReady j].Sublist
      ((List.range m).flatMap (buildSteps doc)) := by
  induction m with
  | zero => omega
  | succ m ih =>
    rw [List.range_succ, List.flatMap_append]
    by_cases hjm : j < m
    · exact (ih hjm).trans (List.sublist_append_left _ _)
    · have hj' : j = m := by omega
      subst j
      have h1 : [AEvent.entityReady i].Sublist
          ((List.range m).flatMap (buildSteps doc)) := by
        rw [List.singleton_sublist]
        exact List.mem_flatMap.2
          ⟨i, List.mem_range.2 (by omega), by simp [buildSteps]⟩
      have h2 : [AEvent.entityReady m].Sublist ([m].flatMap (buildSteps doc)) := by
        rw [List.singleton_sublist]
        simp [buildSteps]
      simpa using h1.append h2

/-- Claim C5: during the entity phase of AppElement.connectedCallback,
(1) every engine entity creation precedes every hierarchy attachment,
(2) readiness resolves in document order,
(3) each element is attached exactly to the engine entity of its closest
ancestor pc-entity when one exists and to the application root otherwise,
and (4) for a pc-entity nested inside another, the ancestor readiness
precedes the descendant readiness. -/
theorem entityPhase_order (doc : List EntityNode) (hwf : DocWF doc) :
    (∀ k i t, k < doc.length →
      AEvent.attach i t ∈ entityPhaseTrace doc →
      [AEvent.createEntity k, AEvent.attach i t].Sublist
        (entityPhaseTrace doc)) ∧
    (∀ i j, i < j → j < doc.length →
      [AEvent.entityReady i, AEvent.entityReady j].Sublist
        (entityPhaseTrace doc)) ∧
    (∀ i n, doc[i]? = some n →
      AEvent.attach i n.parent ∈ entityPhaseTrace doc ∧
      ∀ t, AEvent.attach i t ∈ entityPhaseTrace doc → t = n.parent) ∧
    (∀ i n j, doc[i]? = some n → n.parent = some j →
      [AEvent.entityReady j, AEvent.entityReady i].Sublist
        (entityPhaseTrace doc)) := by
  have hlen : ∀ i n, doc[i]? = some n → i < doc.length := by
    intro i n h
    exact (List.getElem?_eq_some.1 h).1
  refine ⟨?_, ?_, ?_, ?_⟩
  · intro k i t hk hmem
    have hnc : AEvent.attach i t ∈
        (List.range doc.length).flatMap (buildSteps doc) := by
      rcases List.mem_append.1 hmem with hl | hr
      · exact absurd hl (attach_not_in_creates _ _ _)
      · exact hr
    have hck : [AEvent.createEntity k].Sublist
        ((List.range doc.length).map AEvent.createEntity) := by
      rw [List.singleton_sublist, List.mem_map]
      exact ⟨k, List.mem_range.2 hk, rfl⟩
    have hat : [AEvent.attach i t].Sublist
        ((List.range doc.length).flatMap (buildSteps doc)) := by
      rw [List.singleton_sublist]; exact hnc
    simpa [entityPhaseTrace] using hck.append hat
  · intro i j hij hj
    exact ((ready_pair_sublist doc i j doc.length hij hj).trans
      (List.sublist_append_right _ _))
  · intro i n hget
    have hi : i < doc.length := hlen i n hget
    have htarget : attachTarget doc i = n.parent := by
      simp [attachTarget, hget]
    constructor
    · refine List.mem_append.2 (Or.inr ?_)
      refine List.mem_flatMap.2 ⟨i, List.mem_range.2 hi, ?_⟩
      rw [← htarget]
      simp [buildSteps]
    · intro t hmem
      have hnc : AEvent.attach i t ∈
          (List.range doc.length).flatMap (buildSteps doc) := by
        rcases List.mem_append.1 hmem with hl | hr
        · exact absurd hl (attach_not_in_creates _ _ _)
        · exact hr
      obtain ⟨a, _, hstep⟩ := List.mem_flatMap.1 hnc
      simp only [buildSteps, List.mem_cons, List.not_mem_nil, or_false] at hstep
      rcases hstep with heq | heq
      · injection heq with h1 h2
        subst h1
        rw [h2]
        exact htarget
      · exact AEvent.noConfusion heq
  · intro i n j hget hp
    have hi : i < doc.length := hlen i n hget
    have hji : j < i := hwf i n j hget hp
    exact ((ready_pair_sublist doc j i doc.length hji hi).trans
      (List.sublist_append_right _ _))

/-- Witness for C5: a two-element document where the second pc-entity is
nested inside the first. -/
theorem entityPhase_order_witness :
    DocWF [EntityNode.mk none, EntityNode.mk (some 0)] ∧
    [AEvent.entityReady 0, AEvent.entityReady 1].Sublist
      (entityPhaseTrace [EntityNode.mk none, EntityNode.mk (some 0)]) := by
  have hwf : DocWF [EntityNode.mk none, EntityNode.mk (some 0)] := by
    intro i n j hget hp
    match i, hget with
    | 0, hget =>
      cases hget
      simp at hp
    | 1, hget =>
      cases hget
      cases hp
      omega
  exact ⟨hwf,
    (entityPhase_order [EntityNode.mk none, EntityNode.mk (some 0)] hwf).2.2.2
      1 (EntityNode.mk (some 0)) 0 rfl rfl⟩

end Pwc
